import Mathlib

/-!
Shallow embedding of the `sensorsio` repository (WorldClim and Sentinel-2
readers). Geographic coordinates and affine-transform coefficients are
modelled as rationals; external collaborators (the filesystem glob, the
raster storage, the `compute_latlon_bbox_from_region` utility and the
`reproject` engine) are abstract function parameters.
-/

namespace Sensorsio

/-- A six-coefficient affine transform, as in `rasterio.Affine`:
mapping `(col, row) ↦ (a*col + b*row + c, d*col + e*row + f)`. -/
structure Affine where
  a : ℚ
  b : ℚ
  c : ℚ
  d : ℚ
  e : ℚ
  f : ℚ
deriving DecidableEq, Repr

/-- `rasterio.coords.BoundingBox` field order: (left, bottom, right, top). -/
structure BoundingBox where
  left : ℚ
  bottom : ℚ
  right : ℚ
  top : ℚ
deriving DecidableEq, Repr

/-- An integer pixel window `((top, bottom), (left, right))` as passed to
`rasterio`'s windowed read in `crop_to_bbox`. -/
structure Window where
  top : ℤ
  bottom : ℤ
  left : ℤ
  right : ℤ
deriving DecidableEq, Repr

/-- Forward application of an affine transform, x component:
`T * (col, row) = (a*col + b*row + c, ...)`. -/
def fwdX (T : Affine) (col row : ℚ) : ℚ := T.a * col + T.b * row + T.c

/-- Forward application of an affine transform, y component. -/
def fwdY (T : Affine) (col row : ℚ) : ℚ := T.d * col + T.e * row + T.f

/-- Fractional column of geographic point `(x, y)` under the inverse of `T`,
as computed by `rasterio.transform.rowcol` (before the rounding op). -/
def invCol (T : Affine) (x y : ℚ) : ℚ :=
  (T.e * (x - T.c) - T.b * (y - T.f)) / (T.a * T.e - T.b * T.d)

/-- Fractional row of geographic point `(x, y)` under the inverse of `T`. -/
def invRow (T : Affine) (x y : ℚ) : ℚ :=
  (T.a * (y - T.f) - T.d * (x - T.c)) / (T.a * T.e - T.b * T.d)

/-- The pixel-window computation of `WorldClimData.crop_to_bbox`
(src/sensorsio/worldclim.py, lines 112-124): row/col of the two corner
points `(left, top)` and `(right, bottom)` are taken once with `floor` and
once with `ceil`, and the window is the outer envelope
(`min` of all four candidates for `left`/`top`, `max` for `right`/`bottom`). -/
def cropWindow (T : Affine) (bbox : BoundingBox) : Window :=
  let top_f := ⌊invRow T bbox.left bbox.top⌋
  let bottom_f := ⌊invRow T bbox.right bbox.bottom⌋
  let left_f := ⌊invCol T bbox.left bbox.top⌋
  let right_f := ⌊invCol T bbox.right bbox.bottom⌋
  let top_c := ⌈invRow T bbox.left bbox.top⌉
  let bottom_c := ⌈invRow T bbox.right bbox.bottom⌉
  let left_c := ⌈invCol T bbox.left bbox.top⌉
  let right_c := ⌈invCol T bbox.right bbox.bottom⌉
  { left := min (min left_c right_c) (min left_f right_f)
    right := max (max left_c right_c) (max left_f right_f)
    bottom := max (max bottom_c top_c) (max bottom_f top_f)
    top := min (min bottom_c top_c) (min bottom_f top_f) }

/-- The physical quantities available in the WorldClim data base. -/
inductive WorldClimQuantity where
  | PREC
  | SRAD
  | TAVG
  | TMAX
  | TMIN
  | VAPR
  | WIND
deriving DecidableEq, Repr

/-- The `.value` string of each `WorldClimQuantity` enum member. -/
def WorldClimQuantity.value : WorldClimQuantity → String
  | .PREC => "prec"
  | .SRAD => "srad"
  | .TAVG => "tavg"
  | .TMAX => "tmax"
  | .TMIN => "tmin"
  | .VAPR => "vapr"
  | .WIND => "wind"

def WorldClimQuantityAll : List WorldClimQuantity :=
  [.PREC, .SRAD, .TAVG, .TMAX, .TMIN, .VAPR, .WIND]

/-- The BIO variables available in the WorldClim data base. -/
inductive WorldClimBio where
  | ANNUAL_MEAN_TEMP
  | MEAN_DIURNAL_TEMP_RANGE
  | ISOTHERMALITY
  | TEMP_SEASONALITY
  | MAX_TEMP_WARMEST_MONTH
  | MIN_TEMP_COLDEST_MONTH
  | TEMP_ANNUAL_RANGE
  | MEAN_TEMP_WETTEST_QUART
  | MEAN_TEMP_DRIEST_QUART
  | MEAN_TEMP_WARMEST_QUART
  | MEAN_TEMP_COLDEST_QUART
  | ANNUAL_PREC
  | PREC_WETTEST_MONTH
  | PREC_DRIEST_MONTH
  | PREC_SEASONALITY
  | PREC_WETTEST_QUART
  | PREC_DRIEST_QUART
  | PREC_WARMEST_QUART
  | PREC_COLDEST_QUART
deriving DecidableEq, Repr

/-- The `.value` string of each `WorldClimBio` enum member. -/
def WorldClimBio.value : WorldClimBio → String
  | .ANNUAL_MEAN_TEMP => "Annual_Mean_Temp"
  | .MEAN_DIURNAL_TEMP_RANGE => "Mean_Diurnal_Temp_Range"
  | .ISOTHERMALITY => "Isothermality"
  | .TEMP_SEASONALITY => "Temp_Seasonality"
  | .MAX_TEMP_WARMEST_MONTH => "Max_Temp_Warmest_Month"
  | .MIN_TEMP_COLDEST_MONTH => "Min_Temp_Coldest_Month"
  | .TEMP_ANNUAL_RANGE => "Temp_Annual_Range"
  | .MEAN_TEMP_WETTEST_QUART => "Mean_Temp_Wettest_Quart"
  | .MEAN_TEMP_DRIEST_QUART => "Mean_Temp_Driest_Quart"
  | .MEAN_TEMP_WARMEST_QUART => "Mean_Temp_Warmest_Quart"
  | .MEAN_TEMP_COLDEST_QUART => "Mean_Temp_Coldest_Quart"
  | .ANNUAL_PREC => "Annual_Prec"
  | .PREC_WETTEST_MONTH => "Prec_Wettest_Month"
  | .PREC_DRIEST_MONTH => "Prec_Driest_Month"
  | .PREC_SEASONALITY => "Prec_Seasonality"
  | .PREC_WETTEST_QUART => "Prec_Wettest_Quart"
  | .PREC_DRIEST_QUART => "Prec_Driest_Quart"
  | .PREC_WARMEST_QUART => "Prec_Warmest_Quart"
  | .PREC_COLDEST_QUART => "Prec_Coldest_Quart"

def WorldClimBioAll : List WorldClimBio :=
  [.ANNUAL_MEAN_TEMP, .MEAN_DIURNAL_TEMP_RANGE, .ISOTHERMALITY, .TEMP_SEASONALITY,
   .MAX_TEMP_WARMEST_MONTH, .MIN_TEMP_COLDEST_MONTH, .TEMP_ANNUAL_RANGE,
   .MEAN_TEMP_WETTEST_QUART, .MEAN_TEMP_DRIEST_QUART, .MEAN_TEMP_WARMEST_QUART,
   .MEAN_TEMP_COLDEST_QUART, .ANNUAL_PREC, .PREC_WETTEST_MONTH, .PREC_DRIEST_MONTH,
   .PREC_SEASONALITY, .PREC_WETTEST_QUART, .PREC_DRIEST_QUART, .PREC_WARMEST_QUART,
   .PREC_COLDEST_QUART]

/-- The `Union[WorldClimQuantity, WorldClimBio]` argument type of
`WorldClimVar.__init__`. -/
inductive WCVarUnion where
  | quantity (q : WorldClimQuantity)
  | bio (b : WorldClimBio)
deriving DecidableEq, Repr

/-- The `.value` attribute copied by `WorldClimVar.__init__`
(`self.value = var.value`). -/
def WCVarUnion.value : WCVarUnion → String
  | .quantity q => q.value
  | .bio b => b.value

/-- A constructed `WorldClimVar` object: `typ` is either `'bio'` (no month
attribute) or `'clim'` (with a month attribute). -/
inductive WorldClimVar where
  | bio (value : String)
  | clim (value : String) (month : ℤ)
deriving DecidableEq, Repr

/-- The `self.value` attribute of a constructed variable. -/
def WorldClimVar.value : WorldClimVar → String
  | .bio v => v
  | .clim v _ => v

/-- The `self.typ` attribute of a constructed variable. -/
def WorldClimVar.typ : WorldClimVar → String
  | .bio _ => "bio"
  | .clim _ _ => "clim"

/-- The `self.month` attribute: present only on `'clim'` variables. -/
def WorldClimVar.monthAttr : WorldClimVar → Option ℤ
  | .bio _ => none
  | .clim _ m => some m

/-- `WorldClimVar.__init__` (worldclim.py lines 60-69): bio with
`month=None` succeeds; quantity with a month in `[1,12]` succeeds; every
other combination raises `ValueError`. The raised message is the literal
source string (the source lacks the f-prefix, so the braces are literal). -/
def WorldClimVar.init (var : WCVarUnion) (month : Option ℤ) :
    Except String WorldClimVar :=
  match var, month with
  | .bio b, none => .ok (.bio b.value)
  | .quantity q, some m =>
    if 1 ≤ m ∧ m ≤ 12 then .ok (.clim q.value m)
    else .error ("Quantity needs month. Bio does not use month. " ++
                 "Received \x7bvar.value\x7d \x7bmonth\x7d")
  | _, _ => .error ("Quantity needs month. Bio does not use month. " ++
                    "Received \x7bvar.value\x7d \x7bmonth\x7d")

/-- Module-level list `WorldClimQuantityVarAll`: quantity outer loop,
month 1..12 inner loop. -/
def WorldClimQuantityVarAll : List WorldClimVar :=
  WorldClimQuantityAll.flatMap fun v =>
    (List.range 12).map fun m => .clim v.value (m + 1)

/-- Module-level list `WorldClimBioVarAll`. -/
def WorldClimBioVarAll : List WorldClimVar :=
  WorldClimBioAll.map fun b => .bio b.value

/-- Module-level list `WorldClimVarAll`. -/
def WorldClimVarAll : List WorldClimVar :=
  WorldClimQuantityVarAll ++ WorldClimBioVarAll

/-- Zero-padded two-digit rendering, as Python's `f-string` `{n:02}`. -/
def pad2 (n : ℤ) : String :=
  if 0 ≤ n ∧ n < 10 then "0" ++ toString n else toString n

/-- `WorldClimData.get_var_name`: `bio_30s_{idx:02}` for bio variables
(index = 1-based position in the `WorldClimBio` enumeration) and
`30s_{value}_{month:02}` for climate quantities. -/
def get_var_name (var : WorldClimVar) : String :=
  match var with
  | .bio v =>
    let idx := (WorldClimBioAll.findIdx fun wcb => wcb.value = v) + 1
    "bio_30s_" ++ pad2 idx
  | .clim v m => "30s_" ++ v ++ "_" ++ pad2 m

/-- `WorldClimData.get_file_path`: `{wcdir}/wc2.0_{var_name}.tif`. -/
def get_file_path (wcdir : String) (var : WorldClimVar) : String :=
  wcdir ++ "/wc2.0_" ++ get_var_name var ++ ".tif"

/-- The state built by `WorldClimData.__init__`: the directory, the
resolved monthly climate and bio file lists, and the half-pixel-shifted
base transform. -/
structure WorldClimData where
  wcdir : String
  climfiles : List String
  biofiles : List String
  transform : Affine
deriving DecidableEq, Repr

/-- `WorldClimData.__init__` (worldclim.py lines 88-108). `rawTransform`
is the transform read from the first climate file (external raster read).
`climfiles` loops months outer, quantities inner; the stored transform
shifts the raw origin by half a pixel: `c - a/2` and `f - e/2`. -/
def WorldClimData.init (wcdir : String) (rawTransform : Affine) : WorldClimData :=
  { wcdir := wcdir
    climfiles :=
      (List.range 12).flatMap fun m =>
        WorldClimQuantityAll.map fun cv =>
          get_file_path wcdir (.clim cv.value (m + 1))
    biofiles := WorldClimBioAll.map fun b => get_file_path wcdir (.bio b.value)
    transform :=
      { a := rawTransform.a
        b := rawTransform.b
        c := rawTransform.c - rawTransform.a / 2
        d := rawTransform.d
        e := rawTransform.e
        f := rawTransform.f - rawTransform.e / 2 } }

/-- A raster band held in memory: pixel values indexed by (row, col). -/
def Image : Type := ℤ × ℤ → ℚ

/-- `WorldClimData.crop_to_bbox` (worldclim.py lines 110-130): compute the
enclosing pixel window and perform a windowed read of `imfile`;
`readWin file window band` abstracts `rasterio`'s windowed multiband read. -/
def crop_to_bbox (readWin : String → Window → ℕ → Image)
    (cat : WorldClimData) (imfile : String) (bbox : BoundingBox) : ℕ → Image :=
  readWin imfile (cropWindow cat.transform bbox)

/-- `WorldClimData.get_wc_for_bbox` (worldclim.py lines 144-155): one
cropped band-0 layer per requested variable, in request order, and a
transform whose origin is the bbox's own left/top. -/
def get_wc_for_bbox (readWin : String → Window → ℕ → Image)
    (cat : WorldClimData) (bbox : BoundingBox)
    (wc_vars : Option (List WorldClimVar)) : List Image × Affine :=
  let vars := wc_vars.getD WorldClimVarAll
  let files := vars.map (get_file_path cat.wcdir)
  let wcvars := files.map fun wc_file => crop_to_bbox readWin cat wc_file bbox 0
  let transform : Affine :=
    { a := cat.transform.a, b := cat.transform.b, c := bbox.left
      d := cat.transform.d, e := cat.transform.e, f := bbox.top }
  (wcvars, transform)

/-- `rasterio.enums.Resampling` values used by the read entry points. -/
inductive Resampling where
  | nearest
  | bilinear
  | cubic
deriving DecidableEq, Repr

/-- `np.linspace(start, stop, num)` over exact rationals. -/
def linspace (start stop : ℚ) (num : ℕ) : List ℚ :=
  if num = 1 then [start]
  else (List.range num).map fun i : ℕ =>
    start + (i : ℚ) * (stop - start) / ((num : ℚ) - 1)

/-- The tuple returned by `WorldClimData.read_as_numpy`: the destination
stack is summarised by its shape `(count, rows, cols)`; the pixel values
come from the external `reproject` engine and are out of scope. -/
structure NumpyResult where
  count : ℕ
  rows : ℤ
  cols : ℤ
  xcoords : List ℚ
  ycoords : List ℚ
  crs : String
  transform : Affine
deriving DecidableEq, Repr

/-- `WorldClimData.read_as_numpy` (worldclim.py lines 157-195).
`latlonOf` abstracts the external `compute_latlon_bbox_from_region`
utility and `readWin` the raster storage; the destination array is
allocated as `np.zeros((n_vars, dst_size_y, dst_size_x))` and `reproject`
fills it in place, so the result shape is that of the allocation. The
first statement of the body is `assert bounds is not None`. -/
def read_as_numpy (readWin : String → Window → ℕ → Image)
    (latlonOf : BoundingBox → String → BoundingBox)
    (cat : WorldClimData) (wc_vars : Option (List WorldClimVar))
    (crs : Option String) (resolution : ℚ) (bounds : Option BoundingBox)
    (algorithm : Resampling) : Except String NumpyResult :=
  match bounds with
  | none => .error "AssertionError: bounds is not None"
  | some bounds =>
    let crs := crs.getD "+proj=latlong"
    let wc_vars := wc_vars.getD WorldClimVarAll
    let dst_transform : Affine :=
      { a := resolution, b := 0, c := bounds.left
        d := 0, e := -resolution, f := bounds.top }
    let dst_size_x : ℤ := ⌈(bounds.right - bounds.left) / resolution⌉
    let dst_size_y : ℤ := ⌈(bounds.top - bounds.bottom) / resolution⌉
    let bbox := latlonOf bounds crs
    let wc_bbox := get_wc_for_bbox readWin cat bbox (some wc_vars)
    let _ := algorithm
    let xcoords := linspace (bounds.left + resolution / 2)
      (bounds.right - resolution / 2) dst_size_x.toNat
    let ycoords := linspace (bounds.top - resolution / 2)
      (bounds.bottom + resolution / 2) dst_size_y.toNat
    .ok { count := wc_bbox.1.length
          rows := dst_size_y
          cols := dst_size_x
          xcoords := xcoords
          ycoords := ycoords
          crs := crs
          transform := dst_transform }

/-- The Sentinel-2 band enumeration. -/
inductive Band where
  | B2 | B3 | B4 | B5 | B6 | B7 | B8 | B8A | B9 | B10 | B11 | B12
deriving DecidableEq, Repr

/-- The `.value` string of each `Sentinel2.Band` member. -/
def Band.value : Band → String
  | .B2 => "B2" | .B3 => "B3" | .B4 => "B4" | .B5 => "B5"
  | .B6 => "B6" | .B7 => "B7" | .B8 => "B8" | .B8A => "B8A"
  | .B9 => "B9" | .B10 => "B10" | .B11 => "B11" | .B12 => "B12"

/-- The Sentinel-2 band-type enumeration (`FRE`/`SRE`). -/
inductive BandType where
  | FRE
  | SRE
deriving DecidableEq, Repr

/-- The `.value` string of each `Sentinel2.BandType` member. -/
def BandType.value : BandType → String
  | .FRE => "FRE"
  | .SRE => "SRE"

/-- `Sentinel2.build_band_path` (sentinel2.py lines 193-208): glob the
band pattern; zero matches raises `FileNotFoundError` with a message
naming the band, the band type and the product directory; otherwise the
first match (`p[0]`) is returned, ambiguity unchecked. `glob` abstracts
`glob.glob`. -/
def build_band_path (glob : String → List String) (product_dir : String)
    (band : Band) (band_type : BandType) : Except String String :=
  let p := glob (product_dir ++ "/*" ++ band_type.value ++ "_" ++ band.value ++ ".tif")
  match p with
  | [] => .error ("Could not find band " ++ band.value ++ " of type " ++
                  band_type.value ++ " in product directory " ++ product_dir)
  | x :: _ => .ok x

/-- `Sentinel2.build_xml_path` (sentinel2.py lines 184-191): glob the
`*MTD_ALL.xml` pattern; zero matches raises `FileNotFoundError`; any match
falls off the end of the function, which in Python returns `None`. -/
def build_xml_path (glob : String → List String) (product_dir : String) :
    Except String (Option String) :=
  let p := glob (product_dir ++ "/*MTD_ALL.xml")
  match p with
  | [] => .error ("Could not find root XML file in product directory " ++ product_dir)
  | _ :: _ => .ok none

/-- The containment property of a pixel window with respect to a bounding
box: mapping the window's corner columns/rows back through the forward
transform covers the box, overshooting by less than one pixel per edge. -/
def windowContainsBBox (T : Affine) (bbox : BoundingBox) (w : Window) : Prop :=
  fwdX T (w.left : ℚ) (w.top : ℚ) ≤ bbox.left ∧
  bbox.left - T.a < fwdX T (w.left : ℚ) (w.top : ℚ) ∧
  bbox.right ≤ fwdX T (w.right : ℚ) (w.bottom : ℚ) ∧
  fwdX T (w.right : ℚ) (w.bottom : ℚ) < bbox.right + T.a ∧
  bbox.top ≤ fwdY T (w.left : ℚ) (w.top : ℚ) ∧
  fwdY T (w.left : ℚ) (w.top : ℚ) < bbox.top - T.e ∧
  fwdY T (w.right : ℚ) (w.bottom : ℚ) ≤ bbox.bottom ∧
  bbox.bottom + T.e < fwdY T (w.right : ℚ) (w.bottom : ℚ)

/-- Zero overshoot on every edge of the box that lies exactly on a pixel
boundary of the transform's grid. -/
def windowAlignedExact (T : Affine) (bbox : BoundingBox) (w : Window) : Prop :=
  ((∃ k : ℤ, bbox.left = T.a * k + T.c) →
    fwdX T (w.left : ℚ) (w.top : ℚ) = bbox.left) ∧
  ((∃ k : ℤ, bbox.right = T.a * k + T.c) →
    fwdX T (w.right : ℚ) (w.bottom : ℚ) = bbox.right) ∧
  ((∃ k : ℤ, bbox.top = T.e * k + T.f) →
    fwdY T (w.left : ℚ) (w.top : ℚ) = bbox.top) ∧
  ((∃ k : ℤ, bbox.bottom = T.e * k + T.f) →
    fwdY T (w.right : ℚ) (w.bottom : ℚ) = bbox.bottom)

lemma invCol_eq (T : Affine) (hb : T.b = 0) (hd : T.d = 0) (ha : T.a ≠ 0)
    (he : T.e ≠ 0) (x y : ℚ) : invCol T x y = (x - T.c) / T.a := by
  unfold invCol
  rw [hb, hd]
  field_simp
  ring

lemma invRow_eq (T : Affine) (hb : T.b = 0) (hd : T.d = 0) (ha : T.a ≠ 0)
    (he : T.e ≠ 0) (x y : ℚ) : invRow T x y = (y - T.f) / T.e := by
  unfold invRow
  rw [hb, hd]
  field_simp
  ring

lemma cropWindow_fields (T : Affine) (bbox : BoundingBox) (hb : T.b = 0)
    (hd : T.d = 0) (ha : 0 < T.a) (he : T.e < 0)
    (hlr : bbox.left ≤ bbox.right) (hbt : bbox.bottom ≤ bbox.top) :
    (cropWindow T bbox).left = ⌊(bbox.left - T.c) / T.a⌋ ∧
    (cropWindow T bbox).right = ⌈(bbox.right - T.c) / T.a⌉ ∧
    (cropWindow T bbox).top = ⌊(bbox.top - T.f) / T.e⌋ ∧
    (cropWindow T bbox).bottom = ⌈(bbox.bottom - T.f) / T.e⌉ := by
  have hcol : (bbox.left - T.c) / T.a ≤ (bbox.right - T.c) / T.a :=
    (div_le_div_iff_of_pos_right ha).mpr (by linarith)
  have hrow : (bbox.top - T.f) / T.e ≤ (bbox.bottom - T.f) / T.e :=
    (div_le_div_right_of_neg he).mpr (by linarith)
  have hfc : ⌊(bbox.left - T.c) / T.a⌋ ≤ ⌊(bbox.right - T.c) / T.a⌋ :=
    Int.floor_le_floor hcol
  have hcc : ⌈(bbox.left - T.c) / T.a⌉ ≤ ⌈(bbox.right - T.c) / T.a⌉ :=
    Int.ceil_le_ceil hcol
  have hfLc : ⌊(bbox.left - T.c) / T.a⌋ ≤ ⌈(bbox.left - T.c) / T.a⌉ :=
    Int.floor_le_ceil _
  have hfRc : ⌊(bbox.right - T.c) / T.a⌋ ≤ ⌈(bbox.right - T.c) / T.a⌉ :=
    Int.floor_le_ceil _
  have hfr : ⌊(bbox.top - T.f) / T.e⌋ ≤ ⌊(bbox.bottom - T.f) / T.e⌋ :=
    Int.floor_le_floor hrow
  have hcr : ⌈(bbox.top - T.f) / T.e⌉ ≤ ⌈(bbox.bottom - T.f) / T.e⌉ :=
    Int.ceil_le_ceil hrow
  have hfTc : ⌊(bbox.top - T.f) / T.e⌋ ≤ ⌈(bbox.top - T.f) / T.e⌉ :=
    Int.floor_le_ceil _
  have hfBc : ⌊(bbox.bottom - T.f) / T.e⌋ ≤ ⌈(bbox.bottom - T.f) / T.e⌉ :=
    Int.floor_le_ceil _
  unfold cropWindow
  simp only [invCol_eq T hb hd ha.ne' he.ne, invRow_eq T hb hd ha.ne' he.ne]
  refine ⟨?_, ?_, ?_, ?_⟩ <;> dsimp only <;> omega

end Sensorsio

namespace Sensorsio

/-- C6: for every bounding box (in particular every box meeting the
raster's coordinate domain), the pixel window computed by
`WorldClimData.crop_to_bbox` is well-ordered: its `left` column index is
at most its `right` one and its `top` row index at most its `bottom` one. -/
theorem cropWindow_well_ordered (T : Affine) (bbox : BoundingBox) :
    (cropWindow T bbox).left ≤ (cropWindow T bbox).right ∧
    (cropWindow T bbox).top ≤ (cropWindow T bbox).bottom := by
  unfold cropWindow
  dsimp only
  omega

/-- C7: the base transform stored by `WorldClimData.__init__` keeps the
raw transform's `a`, `b`, `d`, `e` coefficients and shifts the origin by
half a pixel: `c` becomes `c - a/2` and `f` becomes `f - e/2`; it is a
pure function of the raw transform read once at construction. -/
theorem worldClimData_init_half_pixel_shift (wcdir : String) (t : Affine) :
    (WorldClimData.init wcdir t).transform =
      { a := t.a, b := t.b, c := t.c - t.a / 2,
        d := t.d, e := t.e, f := t.f - t.e / 2 } := rfl

/-- C3: the transform returned by `WorldClimData.get_wc_for_bbox` keeps
the catalog transform's pixel-size coefficients and sets the origin to
the requested box's own `left`/`top`; moreover (concrete second conjunct)
this origin can differ from the geographic corner of the widened pixel
window that was actually read. -/
theorem get_wc_for_bbox_transform_origin
    (readWin : String → Window → ℕ → Image) (cat : WorldClimData)
    (bbox : BoundingBox) (wc_vars : Option (List WorldClimVar)) :
    (get_wc_for_bbox readWin cat bbox wc_vars).2 =
      { a := cat.transform.a, b := cat.transform.b, c := bbox.left,
        d := cat.transform.d, e := cat.transform.e, f := bbox.top } ∧
    fwdX { a := 1, b := 0, c := 0, d := 0, e := -1, f := 0 }
      ((cropWindow { a := 1, b := 0, c := 0, d := 0, e := -1, f := 0 }
        { left := 1/2, bottom := -3, right := 3, top := -1 }).left : ℚ)
      ((cropWindow { a := 1, b := 0, c := 0, d := 0, e := -1, f := 0 }
        { left := 1/2, bottom := -3, right := 3, top := -1 }).top : ℚ) ≠
      (1/2 : ℚ) := by
  refine ⟨rfl, ?_⟩
  obtain ⟨hl, -, -, -⟩ := cropWindow_fields
    { a := 1, b := 0, c := 0, d := 0, e := -1, f := 0 }
    { left := 1/2, bottom := -3, right := 3, top := -1 }
    rfl rfl (by norm_num) (by norm_num) (by norm_num) (by norm_num)
  have hfl : ⌊((1:ℚ)/2 - 0) / 1⌋ = 0 := by
    rw [Int.floor_eq_iff]
    · norm_num
  rw [fwdX, hl]
  norm_num [hfl]

/-- C4: `WorldClimVar.__init__` succeeds exactly on consistent
type/month pairings: a bio variable with no month succeeds and carries no
month attribute; a climate quantity with a month in `[1,12]` succeeds and
carries that month; a bio with a month, a quantity with no month, and a
quantity with an out-of-range month (such as 0 or 13) all raise
`ValueError`. -/
theorem worldClimVar_init_pairing :
    (∀ b : WorldClimBio, WorldClimVar.init (.bio b) none = .ok (.bio b.value) ∧
      (WorldClimVar.bio b.value).monthAttr = none) ∧
    (∀ (q : WorldClimQuantity) (m : ℤ), 1 ≤ m → m ≤ 12 →
      WorldClimVar.init (.quantity q) (some m) = .ok (.clim q.value m) ∧
      (WorldClimVar.clim q.value m).monthAttr = some m) ∧
    (∀ (b : WorldClimBio) (m : ℤ), ∃ msg,
      WorldClimVar.init (.bio b) (some m) = .error msg) ∧
    (∀ q : WorldClimQuantity, ∃ msg,
      WorldClimVar.init (.quantity q) none = .error msg) ∧
    (∀ (q : WorldClimQuantity) (m : ℤ), m < 1 ∨ 12 < m → ∃ msg,
      WorldClimVar.init (.quantity q) (some m) = .error msg) := by
  refine ⟨fun b => ⟨rfl, rfl⟩, fun q m h1 h2 => ?_, fun b m => ⟨_, rfl⟩,
    fun q => ⟨_, rfl⟩, fun q m h => ?_⟩
  · simp only [WorldClimVar.init]
    rw [if_pos ⟨h1, h2⟩]
    exact ⟨rfl, rfl⟩
  · refine ⟨"Quantity needs month. Bio does not use month. " ++
      "Received \x7bvar.value\x7d \x7bmonth\x7d", ?_⟩
    simp only [WorldClimVar.init]
    rw [if_neg (by omega)]

/-- Witness for C4 at concrete inputs: quantity `prec` with month 5
succeeds carrying month 5, and bio `Annual_Mean_Temp` with month 3 fails. -/
theorem worldClimVar_init_pairing_witness :
    (WorldClimVar.init (.quantity .PREC) (some 5) = .ok (.clim "prec" 5) ∧
      (WorldClimVar.clim "prec" 5).monthAttr = some 5) ∧
    (∃ msg, WorldClimVar.init (.bio .ANNUAL_MEAN_TEMP) (some 3) = .error msg) :=
  ⟨worldClimVar_init_pairing.2.1 .PREC 5 (by norm_num) (by norm_num),
   worldClimVar_init_pairing.2.2.1 .ANNUAL_MEAN_TEMP 3⟩

/-- C5: the stack built by `WorldClimData.get_wc_for_bbox` has one layer
per requested variable, in request order (layer `i` is the cropped band-0
data of variable `i`'s file); duplicates are permitted, and requesting
`[A, B, A]` yields a 3-layer stack whose layers 0 and 2 coincide and
equal variable `A`'s cropped data. -/
theorem get_wc_for_bbox_layer_order
    (readWin : String → Window → ℕ → Image) (cat : WorldClimData)
    (bbox : BoundingBox) (vars : List WorldClimVar) (A B : WorldClimVar) :
    ((get_wc_for_bbox readWin cat bbox (some vars)).1.length = vars.length ∧
     ∀ i : ℕ, (get_wc_for_bbox readWin cat bbox (some vars)).1[i]? =
       (vars[i]?).map fun v =>
         crop_to_bbox readWin cat (get_file_path cat.wcdir v) bbox 0) ∧
    ((get_wc_for_bbox readWin cat bbox (some [A, B, A])).1.length = 3 ∧
     (get_wc_for_bbox readWin cat bbox (some [A, B, A])).1[0]? =
       (get_wc_for_bbox readWin cat bbox (some [A, B, A])).1[2]? ∧
     (get_wc_for_bbox readWin cat bbox (some [A, B, A])).1[0]? =
       some (crop_to_bbox readWin cat (get_file_path cat.wcdir A) bbox 0)) := by
  refine ⟨⟨?_, fun i => ?_⟩, rfl, rfl, rfl⟩
  · simp [get_wc_for_bbox]
  · simp [get_wc_for_bbox, List.getElem?_map, Function.comp_def]

/-- C1: for boxes inside an axis-aligned raster grid (`b = d = 0`,
`a > 0`, `e < 0`, well-ordered edges), the pixel window computed by
`WorldClimData.crop_to_bbox` fully contains the requested geographic box
when its corners are mapped back through the transform, overshooting by
less than one pixel per edge; and an edge landing exactly on a pixel
boundary is reproduced with zero overshoot. -/
theorem crop_to_bbox_window_contains (T : Affine) (bbox : BoundingBox)
    (hb : T.b = 0) (hd : T.d = 0) (ha : 0 < T.a) (he : T.e < 0)
    (hlr : bbox.left ≤ bbox.right) (hbt : bbox.bottom ≤ bbox.top) :
    windowContainsBBox T bbox (cropWindow T bbox) ∧
    windowAlignedExact T bbox (cropWindow T bbox) := by
  obtain ⟨hl, hr, ht, hbm⟩ := cropWindow_fields T bbox hb hd ha he hlr hbt
  have haL : T.a * ((bbox.left - T.c) / T.a) = bbox.left - T.c := by
    rw [← mul_div_assoc]
    exact mul_div_cancel_left₀ _ ha.ne'
  have haR : T.a * ((bbox.right - T.c) / T.a) = bbox.right - T.c := by
    rw [← mul_div_assoc]
    exact mul_div_cancel_left₀ _ ha.ne'
  have heT : T.e * ((bbox.top - T.f) / T.e) = bbox.top - T.f := by
    rw [← mul_div_assoc]
    exact mul_div_cancel_left₀ _ he.ne
  have heB : T.e * ((bbox.bottom - T.f) / T.e) = bbox.bottom - T.f := by
    rw [← mul_div_assoc]
    exact mul_div_cancel_left₀ _ he.ne
  unfold windowContainsBBox windowAlignedExact fwdX fwdY
  rw [hl, hr, ht, hbm, hb, hd]
  simp only [zero_mul, add_zero, zero_add]
  refine ⟨⟨?_, ?_, ?_, ?_, ?_, ?_, ?_, ?_⟩, ?_, ?_, ?_, ?_⟩
  · have h1 := mul_le_mul_of_nonneg_left
      (Int.floor_le ((bbox.left - T.c) / T.a)) ha.le
    linarith
  · have h1 := mul_lt_mul_of_pos_left
      (Int.sub_one_lt_floor ((bbox.left - T.c) / T.a)) ha
    have h2 : T.a * ((bbox.left - T.c) / T.a - 1) =
        T.a * ((bbox.left - T.c) / T.a) - T.a := by ring
    linarith
  · have h1 := mul_le_mul_of_nonneg_left
      (Int.le_ceil ((bbox.right - T.c) / T.a)) ha.le
    linarith
  · have h1 := mul_lt_mul_of_pos_left
      (Int.ceil_lt_add_one ((bbox.right - T.c) / T.a)) ha
    have h2 : T.a * ((bbox.right - T.c) / T.a + 1) =
        T.a * ((bbox.right - T.c) / T.a) + T.a := by ring
    linarith
  · have h1 := mul_le_mul_of_nonpos_left
      (Int.floor_le ((bbox.top - T.f) / T.e)) he.le
    linarith
  · have h1 := mul_lt_mul_of_neg_left
      (Int.sub_one_lt_floor ((bbox.top - T.f) / T.e)) he
    have h2 : T.e * ((bbox.top - T.f) / T.e - 1) =
        T.e * ((bbox.top - T.f) / T.e) - T.e := by ring
    linarith
  · have h1 := mul_le_mul_of_nonpos_left
      (Int.le_ceil ((bbox.bottom - T.f) / T.e)) he.le
    linarith
  · have h1 := mul_lt_mul_of_neg_left
      (Int.ceil_lt_add_one ((bbox.bottom - T.f) / T.e)) he
    have h2 : T.e * ((bbox.bottom - T.f) / T.e + 1) =
        T.e * ((bbox.bottom - T.f) / T.e) + T.e := by ring
    linarith
  · rintro ⟨k, hk⟩
    have hLk : (bbox.left - T.c) / T.a = (k : ℚ) := by
      rw [hk, add_sub_cancel_right, mul_comm]
      exact mul_div_cancel_right₀ _ ha.ne'
    rw [hLk, Int.floor_intCast]
    linarith [hk]
  · rintro ⟨k, hk⟩
    have hRk : (bbox.right - T.c) / T.a = (k : ℚ) := by
      rw [hk, add_sub_cancel_right, mul_comm]
      exact mul_div_cancel_right₀ _ ha.ne'
    rw [hRk, Int.ceil_intCast]
    linarith [hk]
  · rintro ⟨k, hk⟩
    have hTk : (bbox.top - T.f) / T.e = (k : ℚ) := by
      rw [hk, add_sub_cancel_right, mul_comm]
      exact mul_div_cancel_right₀ _ he.ne
    rw [hTk, Int.floor_intCast]
    linarith [hk]
  · rintro ⟨k, hk⟩
    have hBk : (bbox.bottom - T.f) / T.e = (k : ℚ) := by
      rw [hk, add_sub_cancel_right, mul_comm]
      exact mul_div_cancel_right₀ _ he.ne
    rw [hBk, Int.ceil_intCast]
    linarith [hk]

/-- Witness for C1 at a concrete axis-aligned transform and box. -/
theorem crop_to_bbox_window_contains_witness :
    ((0:ℚ) < 1 ∧ (-1:ℚ) < 0 ∧ (1/2:ℚ) ≤ 5/2 ∧ (1/2:ℚ) ≤ 7/2) ∧
    windowContainsBBox { a := 1, b := 0, c := 0, d := 0, e := -1, f := 0 }
      { left := 1/2, bottom := 1/2, right := 5/2, top := 7/2 }
      (cropWindow { a := 1, b := 0, c := 0, d := 0, e := -1, f := 0 }
        { left := 1/2, bottom := 1/2, right := 5/2, top := 7/2 }) ∧
    windowAlignedExact { a := 1, b := 0, c := 0, d := 0, e := -1, f := 0 }
      { left := 1/2, bottom := 1/2, right := 5/2, top := 7/2 }
      (cropWindow { a := 1, b := 0, c := 0, d := 0, e := -1, f := 0 }
        { left := 1/2, bottom := 1/2, right := 5/2, top := 7/2 }) :=
  ⟨⟨by norm_num, by norm_num, by norm_num, by norm_num⟩,
   (crop_to_bbox_window_contains
     { a := 1, b := 0, c := 0, d := 0, e := -1, f := 0 }
     { left := 1/2, bottom := 1/2, right := 5/2, top := 7/2 }
     rfl rfl (by norm_num) (by norm_num) (by norm_num) (by norm_num)).1,
   (crop_to_bbox_window_contains
     { a := 1, b := 0, c := 0, d := 0, e := -1, f := 0 }
     { left := 1/2, bottom := 1/2, right := 5/2, top := 7/2 }
     rfl rfl (by norm_num) (by norm_num) (by norm_num) (by norm_num)).2⟩

lemma linspace_head (start stop : ℚ) (num : ℕ) (h : num ≠ 0) :
    (linspace start stop num).head? = some start := by
  unfold linspace
  rcases eq_or_ne num 1 with h1 | h1
  · simp [h1]
  · rw [if_neg h1]
    obtain ⟨k, rfl⟩ : ∃ k, num = k + 1 := ⟨num - 1, by omega⟩
    rw [List.range_succ_eq_map]
    simp

lemma linspace_last (start stop : ℚ) (num : ℕ) (h : 2 ≤ num) :
    (linspace start stop num).getLast? = some stop := by
  obtain ⟨k, rfl⟩ : ∃ k, num = k + 2 := ⟨num - 2, by omega⟩
  unfold linspace
  rw [if_neg (by omega), List.range_succ, List.map_append,
    List.getLast?_append_of_ne_nil _ (by simp)]
  simp only [List.map_cons, List.map_nil, List.getLast?_singleton,
    Option.some.injEq]
  have hne : ((k : ℚ) + 1) ≠ 0 := by positivity
  push_cast
  rw [show ((k : ℚ) + 2 - 1) = (k : ℚ) + 1 by ring,
    mul_div_cancel_left₀ _ hne]
  ring

/-- C2: `WorldClimData.read_as_numpy` returns a stack of shape
`(n_vars, ceil((top-bottom)/resolution), ceil((right-left)/resolution))`;
in particular for bounds `left=0, right=1000, top=1000, bottom=0` and
`resolution=100` the shape is `(n, 10, 10)`, the x-coordinate vector runs
from 50 to 950 and the y-coordinate vector from 950 down to 50 (pixel
centers inset by half a resolution from the bounds). -/
theorem read_as_numpy_shape_coords
    (readWin : String → Window → ℕ → Image)
    (latlonOf : BoundingBox → String → BoundingBox) (cat : WorldClimData)
    (vars : List WorldClimVar) (crs : Option String)
    (algorithm : Resampling) :
    (∀ (resolution : ℚ) (bounds : BoundingBox), ∃ r : NumpyResult,
      read_as_numpy readWin latlonOf cat (some vars) crs resolution
        (some bounds) algorithm = .ok r ∧
      r.count = vars.length ∧
      r.rows = ⌈(bounds.top - bounds.bottom) / resolution⌉ ∧
      r.cols = ⌈(bounds.right - bounds.left) / resolution⌉) ∧
    (∃ r : NumpyResult,
      read_as_numpy readWin latlonOf cat (some vars) crs 100
        (some { left := 0, bottom := 0, right := 1000, top := 1000 })
        algorithm = .ok r ∧
      r.count = vars.length ∧ r.rows = 10 ∧ r.cols = 10 ∧
      r.xcoords.head? = some 50 ∧ r.xcoords.getLast? = some 950 ∧
      r.ycoords.head? = some 950 ∧ r.ycoords.getLast? = some 50) := by
  have hten : ⌈((1000:ℚ) - 0) / 100⌉ = 10 := by
    rw [show ((1000:ℚ) - 0) / 100 = ((10:ℤ) : ℚ) by norm_num, Int.ceil_intCast]
  constructor
  · intro resolution bounds
    refine ⟨_, rfl, ?_, rfl, rfl⟩
    simp [read_as_numpy, get_wc_for_bbox]
  · refine ⟨_, rfl, ?_, ?_, ?_, ?_, ?_, ?_, ?_⟩
    · simp [read_as_numpy, get_wc_for_bbox]
    · exact hten
    · exact hten
    · show (linspace (0 + 100/2) (1000 - 100/2) (⌈((1000:ℚ) - 0)/100⌉.toNat)).head? = _
      rw [hten]
      rw [linspace_head _ _ _ (by norm_num)]
      norm_num
    · show (linspace (0 + 100/2) (1000 - 100/2) (⌈((1000:ℚ) - 0)/100⌉.toNat)).getLast? = _
      rw [hten]
      rw [linspace_last _ _ _ (by norm_num)]
      norm_num
    · show (linspace (1000 - 100/2) (0 + 100/2) (⌈((1000:ℚ) - 0)/100⌉.toNat)).head? = _
      rw [hten]
      rw [linspace_head _ _ _ (by norm_num)]
      norm_num
    · show (linspace (1000 - 100/2) (0 + 100/2) (⌈((1000:ℚ) - 0)/100⌉.toNat)).getLast? = _
      rw [hten]
      rw [linspace_last _ _ _ (by norm_num)]
      norm_num

/-- C8: `Sentinel2.build_band_path` fails with a `FileNotFoundError`
message naming the band, the band type and the searched product directory
exactly when the glob pattern matches zero files; with one or more
matches it returns the first match without signalling ambiguity. -/
theorem build_band_path_not_found_or_first (glob : String → List String)
    (product_dir : String) (band : Band) (band_type : BandType) :
    (glob (product_dir ++ "/*" ++ band_type.value ++ "_" ++ band.value ++ ".tif") = [] →
      build_band_path glob product_dir band band_type =
        .error ("Could not find band " ++ band.value ++ " of type " ++
                band_type.value ++ " in product directory " ++ product_dir)) ∧
    (∀ (x : String) (xs : List String),
      glob (product_dir ++ "/*" ++ band_type.value ++ "_" ++ band.value ++ ".tif") = x :: xs →
      build_band_path glob product_dir band band_type = .ok x) := by
  constructor
  · intro h
    simp [build_band_path, h]
  · intro x xs h
    simp [build_band_path, h]

/-- Witness for C8: an empty glob raises naming band, type and directory;
a two-match glob silently returns the first match. -/
theorem build_band_path_not_found_or_first_witness :
    build_band_path (fun _ => []) "dir" .B2 .FRE =
      .error ("Could not find band " ++ Band.B2.value ++ " of type " ++
              BandType.FRE.value ++ " in product directory " ++ "dir") ∧
    build_band_path (fun _ => ["a.tif", "b.tif"]) "dir" .B3 .SRE = .ok "a.tif" :=
  ⟨(build_band_path_not_found_or_first (fun _ => []) "dir" .B2 .FRE).1 rfl,
   (build_band_path_not_found_or_first (fun _ => ["a.tif", "b.tif"]) "dir"
     .B3 .SRE).2 "a.tif" ["b.tif"] rfl⟩

/-- C9: `Sentinel2.build_xml_path` returns Python's `None` (not the
matched path) whenever at least one file matches `*MTD_ALL.xml`, despite
its declared `str` return type, and raises `FileNotFoundError` exactly
when zero files match. -/
theorem build_xml_path_returns_none (glob : String → List String)
    (product_dir : String) :
    (∀ (x : String) (xs : List String),
      glob (product_dir ++ "/*MTD_ALL.xml") = x :: xs →
      build_xml_path glob product_dir = .ok none) ∧
    (glob (product_dir ++ "/*MTD_ALL.xml") = [] →
      build_xml_path glob product_dir =
        .error ("Could not find root XML file in product directory " ++
                product_dir)) := by
  constructor
  · intro x xs h
    simp [build_xml_path, h]
  · intro h
    simp [build_xml_path, h]

/-- Witness for C9: with one matching file the result is `None`, with no
matching file the not-found error is raised. -/
theorem build_xml_path_returns_none_witness :
    build_xml_path (fun _ => ["p_MTD_ALL.xml"]) "dir" = .ok none ∧
    build_xml_path (fun _ => []) "dir" =
      .error ("Could not find root XML file in product directory " ++ "dir") :=
  ⟨(build_xml_path_returns_none (fun _ => ["p_MTD_ALL.xml"]) "dir").1
     "p_MTD_ALL.xml" [] rfl,
   (build_xml_path_returns_none (fun _ => []) "dir").2 rfl⟩

/-- C10: `WorldClimData.read_as_numpy` fails its leading
`assert bounds is not None` whenever `bounds` is `None` (its default),
for every combination of the other arguments and independently of the
storage and reprojection collaborators (so before any file is read). -/
theorem read_as_numpy_asserts_bounds (readWin : String → Window → ℕ → Image)
    (latlonOf : BoundingBox → String → BoundingBox) (cat : WorldClimData)
    (wc_vars : Option (List WorldClimVar)) (crs : Option String)
    (resolution : ℚ) (algorithm : Resampling) :
    read_as_numpy readWin latlonOf cat wc_vars crs resolution none algorithm =
      .error "AssertionError: bounds is not None" := rfl

end Sensorsio
